import Mathlib

/-!
Verification development for the Clotex image-processing backend
(`backend/src/core/layer_builder.py`, `backend/src/core/anchor.py`,
`backend/src/api/image.py`).

The Python source is shallowly embedded: pure computations become Lean
functions, Python floats are modelled as exact rationals, `uint8` channel
values as `Nat`, raised exceptions as `Except String`.  The opaque ML
collaborators (segmentation, classification, upscaling) and the stochastic
k-means fits are modelled as explicit oracle parameters / per-file outcome
records, since only their success/failure and returned data shape matter to
the orchestration logic under verification.
-/

namespace Clotex

/-- One lowercase hexadecimal digit, as produced by Python `format(x, "x")`. -/
def hexDigit (n : Nat) : Char :=
  if n < 10 then Char.ofNat (48 + n) else Char.ofNat (87 + n)

/-- Two-digit lowercase hex rendering of a `uint8` value, Python `f"{v:02x}"`
(for `v < 256` the result always has exactly two digits). -/
def toHex2 (n : Nat) : String :=
  String.mk [hexDigit (n / 16 % 16), hexDigit (n % 16)]

/-- An 8-bit RGB colour triple (a k-means centroid after conversion back to
RGB and `astype(np.uint8)` in `separate_color_layers`). -/
structure RGB8 where
  r : Nat
  g : Nat
  b : Nat
deriving DecidableEq, Repr

/-- `layer_builder.py` line 94: `color_hex = f"#{color[0]:02x}{color[1]:02x}{color[2]:02x}"`.
Note the leading `#` is part of the tag. -/
def color_hex (c : RGB8) : String :=
  "#" ++ toHex2 c.r ++ toHex2 c.g ++ toHex2 c.b

/-- `layer_builder.py` line 95: `brightness = 0.299*color[0] + 0.587*color[1] + 0.114*color[2]`,
with the float coefficients modelled as exact rationals. -/
def lumaQ (c : RGB8) : ℚ :=
  (299 * (c.r : ℚ) + 587 * (c.g : ℚ) + 114 * (c.b : ℚ)) / 1000

/-- One colour layer as built by `separate_color_layers`: the cluster index,
its RGB centroid, the hex tag and the brightness key.  The layer raster itself
(foreground pixels = centroid colour) is determined by `cluster` and the label
array, so it is not duplicated here; pixel membership of layer `L` in label
array `labels` is `labels.count L.cluster`. -/
structure Layer where
  cluster : Nat
  color : RGB8
  hex : String
  brightness : ℚ
deriving DecidableEq, Repr

/-- Sort key of `layers.sort(key=lambda x: x[2])`: ascending brightness. -/
def brightLe (a b : Layer) : Prop := a.brightness ≤ b.brightness

instance : DecidableRel brightLe :=
  fun a b => inferInstanceAs (Decidable (a.brightness ≤ b.brightness))

instance : IsTotal Layer brightLe := ⟨fun a b => le_total a.brightness b.brightness⟩

instance : IsTrans Layer brightLe := ⟨fun _ _ _ h h' => le_trans h h'⟩

/-- The layer-building loop of `separate_color_layers` (lines 83-98): for each
centroid `i`, skip it when no pixel carries label `i` (`np.any(labels == i)`),
otherwise emit a layer with the centroid colour, hex tag and brightness. -/
def buildLayers (labels : List Nat) (centers : List RGB8) : List Layer :=
  centers.enum.filterMap fun ic =>
    if labels.contains ic.1 then
      some { cluster := ic.1, color := ic.2, hex := color_hex ic.2,
             brightness := lumaQ ic.2 }
    else none

/-- Lines 83-104 of `separate_color_layers`: build the non-empty layers, then
sort them darkest to lightest (stable ascending sort on the brightness key). -/
def separate_color_layers_core (labels : List Nat) (centers : List RGB8) : List Layer :=
  List.insertionSort brightLe (buildLayers labels centers)

/-- Successive differences `np.diff` of a sequence. -/
def npDiff : List ℚ → List ℚ
  | a :: b :: t => (b - a) :: npDiff (b :: t)
  | _ => []

/-- `ratios = np.abs(deltas[1:] / (deltas[:-1] + 1e-9))` (`auto_kmeans` line 24). -/
def elbowRatios (deltas : List ℚ) : List ℚ :=
  (deltas.zip deltas.tail).map fun pn => |pn.2 / (pn.1 + 1 / 1000000000)|

/-- First index of the minimum, the behaviour of `np.argmin` on a non-empty
array (ties resolved to the earliest index). -/
def argminAux : List ℚ → Nat → ℚ → Nat → Nat
  | [], _, _, best => best
  | x :: t, i, m, best =>
    if x < m then argminAux t (i + 1) x i else argminAux t (i + 1) m best

/-- `np.argmin`, `none` on an empty array (where NumPy raises `ValueError`). -/
def argminIdx : List ℚ → Option Nat
  | [] => none
  | x :: t => some (argminAux t 1 x 0)

/-- The inertia sequence recorded by the `auto_kmeans` loop for
`k in range(k_min, k_max + 1)`; the MiniBatchKMeans fit is opaque, so the
inertia reported for each `k` is an oracle parameter. -/
def inertiaSeq (inertia : Nat → ℚ) (k_min k_max : Nat) : List ℚ :=
  (List.range' k_min (k_max + 1 - k_min)).map inertia

/-- `auto_kmeans` (`layer_builder.py` lines 14-27):
`k_auto = min(int(np.argmin(ratios) + k_min + 1), 10)`.
Returns `none` when the ratio array is empty and `np.argmin` raises. -/
def auto_kmeans (inertia : Nat → ℚ) (k_min k_max : Nat) : Option Nat :=
  match argminIdx (elbowRatios (npDiff (inertiaSeq inertia k_min k_max))) with
  | none => none
  | some a => some (min (a + k_min + 1) 10)

/-- A Python value passed as the `auto_k` argument.  Python booleans are a
subtype of `int` (`False == 0`, `True == 1`, `isinstance(True, int)`), so they
are modelled by their integer value; `nonint` stands for any non-integer value
such as a float or a string (which fails `isinstance(auto_k, int)`).  The
membership test `auto_k in (0, False, None)` of `layer_builder.py` line 57 is
equality-based, and a non-integer can compare equal to `0` (e.g. the float
`0.0`), so `nonint` records that comparison in its `eqZero` field. -/
inductive KParam where
  | none
  | intval (n : Int)
  | nonint (eqZero : Bool) (desc : String)
deriving DecidableEq, Repr

/-- The error message of `layer_builder.py` line 62. -/
def invalidKMsg : String := "Invalid auto_k value. Must be 0 for auto or 1-10."

/-- Lines 56-62 of `separate_color_layers`: the equality-based check
`auto_k in (0, False, None)` runs first and picks the automatic count (so any
value comparing equal to `0` — the integer `0`, `False`, or a zero-valued
non-integer such as `0.0` — selects it); otherwise an `int` in `[1,10]` is
used directly, and anything else raises `ValueError` (a non-integer fails the
`isinstance(auto_k, int)` test).  `autoSel` is the value
`auto_kmeans(pixels, 2, 15)` would return for this image (the stochastic fit
is an oracle). -/
def selectNColors (auto_k : KParam) (autoSel : Nat) : Except String Nat :=
  match auto_k with
  | .none => .ok autoSel
  | .intval n =>
    if n = 0 then .ok autoSel
    else if 1 ≤ n ∧ n ≤ 10 then .ok n.toNat
    else .error invalidKMsg
  | .nonint eqZero _ =>
    if eqZero then .ok autoSel else .error invalidKMsg

/-- The result of `KMeans(n_clusters=n).fit_predict` on one image: the pixel
label array and the `n` centroids converted back to RGB. -/
structure ClusterFit where
  labels : List Nat
  centers : List RGB8

/-- One upscaled image as seen by `separate_color_layers`: whether it is a
valid `(H,W,3)` raster, the automatic cluster count its pixel sample would
yield, and the (opaque, deterministic-seed) k-means fit for each requested
cluster count. -/
structure ImgSpec where
  shapeOk : Bool
  autoSel : Nat
  fit : Nat → ClusterFit

/-- `separate_color_layers` (`layer_builder.py` lines 30-108): shape check,
cluster-count selection, k-means fit, then the build-and-sort loop.  Errors
are re-raised to the caller (the `except` clause only logs). -/
def separate_color_layers (img : ImgSpec) (auto_k : KParam) : Except String (List Layer) :=
  if !img.shapeOk then
    .error "Expected RGB image with shape (H,W,3)"
  else
    match selectNColors auto_k img.autoSel with
    | .error e => .error e
    | .ok n =>
      let f := img.fit n
      .ok (separate_color_layers_core f.labels f.centers)

/-- `separate_color_layers_batch` (lines 111-136) on a list input: process
each image in order, concatenating the layer lists; the first exception
propagates (the `except` clause only logs and re-raises). -/
def separate_color_layers_batch (images : List ImgSpec) (auto_k : KParam) :
    Except String (List Layer) :=
  match images with
  | [] => .ok []
  | img :: rest =>
    match separate_color_layers img auto_k with
    | .error e => .error e
    | .ok layers =>
      match separate_color_layers_batch rest auto_k with
      | .error e => .error e
      | .ok more => .ok (layers ++ more)

/-- Python call semantics for `separate_color_layers_batch`: the parameter
`auto_k` has no default, so a call site that omits it (as the WebSocket
endpoint does at `image.py` line 258) raises `TypeError` before the function
body runs. -/
def separate_color_layers_batch_call (images : List ImgSpec) (auto_k : Option KParam) :
    Except String (List Layer) :=
  match auto_k with
  | Option.none =>
    .error "TypeError: separate_color_layers_batch missing 1 required positional argument: auto_k"
  | Option.some k => separate_color_layers_batch images k

/-- `image.py` line 136: `rel_path = f"{name_stem}/layer_{idx}_{layer_hex}.png"`,
with the hex tag inserted verbatim. -/
def rel_path (stem : String) (idx : Nat) (hex : String) : String :=
  stem ++ "/layer_" ++ toString idx ++ "_" ++ hex ++ ".png"

/-- The archive-entry names produced by the export loop
`for idx, (layer_img, layer_hex) in enumerate(final, start=1)`
(`image.py` lines 135-138), given the hex tags of the layers in order. -/
def exportLoop (stem : String) : Nat → List String → List String
  | _, [] => []
  | idx, hex :: rest => rel_path stem idx hex :: exportLoop stem (idx + 1) rest

/-- Archive-entry names for one image, 1-based enumeration. -/
def exportPaths (stem : String) (hexes : List String) : List String :=
  exportLoop stem 1 hexes

/-- Normalisation of one Python slice endpoint on an axis of length `n`
(positive step): a negative endpoint counts from the end and is clamped below
at `0`; a non-negative endpoint is clamped above at `n`.  NumPy basic slicing
never indexes out of bounds. -/
def pySliceLo (n a : Int) : Int :=
  if a < 0 then max (n + a) 0 else min a n

/-- Row/column slice arguments of one NumPy assignment
`img_array[rlo:rhi, clo:chi] = colour`. -/
structure Rect where
  rlo : Int
  rhi : Int
  clo : Int
  chi : Int
deriving DecidableEq, Repr

/-- Whether pixel `(r, c)` of an `h x w` array is written by the slice
assignment `R`. -/
def rectMem (h w : Int) (R : Rect) (r c : Int) : Bool :=
  decide (pySliceLo h R.rlo ≤ r) && decide (r < pySliceLo h R.rhi) &&
  decide (pySliceLo w R.clo ≤ c) && decide (c < pySliceLo w R.chi)

/-- The four slice assignments of `_draw_cross` (`anchor.py` lines 96-133) at
centre `(x, y)` with half-length `size` and outline width `ow`, in program
order: horizontal outline, vertical outline (whose column start is still the
`max(0, x - extended_size)` left over from line 110), main horizontal line
(rows `y:y+1`, unclamped in the source), main vertical line. -/
def crossRects (h w x y size ow : Int) : List Rect :=
  let es := size + ow
  [ ⟨max 0 (y - ow), min h (y + ow + 1), max 0 (x - es), min w (x + es + 1)⟩,
    ⟨max 0 (y - es), min h (y + es + 1), max 0 (x - es), min w (x + ow + 1)⟩,
    ⟨y, y + 1, max 0 (x - size), min w (x + size + 1)⟩,
    ⟨max 0 (y - size), min h (y + size + 1), x, x + 1⟩ ]

/-- Corner positions of `add_anchors` (`anchor.py` lines 36-41), as `(x, y)`. -/
def anchorPositions (h w margin : Int) : List (Int × Int) :=
  [ (margin, margin), (w - margin - 1, margin),
    (margin, h - margin - 1), (w - margin - 1, h - margin - 1) ]

/-- The guard of `anchor.py` lines 44-52: a corner mark is drawn only when the
whole cross including its outline fits inside the image. -/
def crossFits (h w cs ow : Int) (p : Int × Int) : Bool :=
  !(decide (p.1 < cs + ow) || decide (p.1 ≥ w - cs - ow) ||
    decide (p.2 < cs + ow) || decide (p.2 ≥ h - cs - ow))

/-- All slice assignments performed by `add_anchors` on an `h x w` image:
positions failing the fit guard are skipped entirely; each drawn mark
contributes the four `_draw_cross` assignments. -/
def addAnchorsRects (h w cs margin ow : Int) : List Rect :=
  ((anchorPositions h w margin).filter (crossFits h w cs ow)).flatMap
    fun p => crossRects h w p.1 p.2 cs ow

/-- Whether `add_anchors` writes pixel `(r, c)` at all. -/
def addAnchorsWrites (h w cs margin ow r c : Int) : Bool :=
  (addAnchorsRects h w cs margin ow).any fun R => rectMem h w R r c

/-- An element of the `layers` list taken by `add_anchors_to_layers`
(`anchor.py` lines 136-160): either an `(image, hex)` tuple or a bare image.
Images are abstract tokens (`Nat`); annotating an image is modelled by the
oracle parameter `ann` below, which may raise. -/
inductive LItem where
  | tup (img : Nat) (hex : String)
  | plain (img : Nat)
deriving DecidableEq, Repr

/-- The image carried by a list item. -/
def LItem.img : LItem → Nat
  | .tup i _ => i
  | .plain i => i

/-- The hex tag carried by a list item, if any. -/
def LItem.tag : LItem → Option String
  | .tup _ h => some h
  | .plain _ => none

/-- `add_anchors_to_layers` (`anchor.py` lines 136-160): loop over the items,
await `add_anchors` on each image, rebuild the same shape of item.  The loop
body has no `try`, so the first exception raised by `add_anchors` propagates
and aborts the whole call.  `ann` is the (possibly raising) per-image
behaviour of `add_anchors`. -/
def add_anchors_to_layers (ann : Nat → Except String Nat) :
    List LItem → Except String (List LItem)
  | [] => .ok []
  | .tup img hex :: rest =>
    match ann img with
    | .error e => .error e
    | .ok a =>
      match add_anchors_to_layers ann rest with
      | .error e => .error e
      | .ok r => .ok (.tup a hex :: r)
  | .plain img :: rest =>
    match ann img with
    | .error e => .error e
    | .ok a =>
      match add_anchors_to_layers ann rest with
      | .error e => .error e
      | .ok r => .ok (.plain a :: r)

/-- The item an element maps to when its annotation succeeds. -/
def annotateItem (ann : Nat → Except String Nat) : LItem → LItem
  | .tup img hex => .tup ((ann img).toOption.getD img) hex
  | .plain img => .plain ((ann img).toOption.getD img)

/-- A Python value being iterated: either an actual list, or the coroutine
object obtained by calling an `async def` function without `await`. -/
inductive PyIter (α : Type) where
  | list (xs : List α)
  | coroutine
deriving DecidableEq, Repr

/-- Python iteration: `enumerate` (hence `for`) raises `TypeError` on a
coroutine object; a list yields its elements. -/
def pyIterate {α : Type} : PyIter α → Except String (List α)
  | .list xs => .ok xs
  | .coroutine => .error "TypeError: coroutine object is not iterable"

/-- `image.py` line 129 (and line 263): `final = add_anchors_to_layers(layers)`.
`add_anchors_to_layers` is `async def` and the call is not awaited, so the
call merely creates a coroutine object — the body never runs and no exception
is raised at this point. -/
def add_anchors_to_layers_unawaited (_layers : List Layer) : PyIter Layer :=
  PyIter.coroutine

/-- `pathlib.Path(name).stem`: the file name without its final suffix (a dot
at position 0 does not start a suffix). -/
def stemOf (s : String) : String :=
  let dots := (s.toList.enum.filter fun ic => ic.2 = '.').map (·.1)
  match dots.getLast? with
  | Option.none => s
  | Option.some i => if i = 0 then s else String.mk (s.toList.take i)

/-- One uploaded file as the batch endpoint sees it: the `filename` attribute
(absent on malformed uploads), the outcomes of the decode step and of the
three opaque model stages, and the upscaled rasters handed to colour
separation. -/
structure InFile where
  filename : Option String
  decode : Except String Unit
  segment : Except String Unit
  classify : Except String Unit
  upscale : Except String Unit
  upscaled : List ImgSpec

/-- A per-file failure record appended to `per_file_errors`
(`image.py` lines 156-161): image name, the step name current at the raise
site, and the error text. -/
structure FailRec where
  image : String
  step : String
  error : String
deriving DecidableEq, Repr

/-- A per-file success record appended to `overall_results`: image name and
the `(layer_number, color_hex, path)` triples of its encoded layers. -/
structure SuccessRec where
  image : String
  layers : List (Nat × String × String)
deriving DecidableEq, Repr

/-- `file_name = getattr(upfile, "filename", f"image_{file_index}.png")`. -/
def fileNameOf (idx : Nat) (f : InFile) : String :=
  f.filename.getD ("image_" ++ toString idx ++ ".png")

/-- `name_stem = Path(file_name).stem or f"image_{file_index}"`. -/
def nameStemOf (idx : Nat) (f : InFile) : String :=
  let st := stemOf (fileNameOf idx f)
  if st = "" then "image_" ++ toString idx else st

/-- The per-file `try` body of the batch endpoint (`image.py` lines 85-161).
Steps in order: `load_image` (reading the upload, not modelled as failing),
`preprocess` (the decode — `current_step` is advanced to `steps[1]` *before*
`Image.open`, so a decode failure is tagged `preprocess`), `segment`,
`classify`, `upscale`, `color_separate`, `add_anchors` (creating the
unawaited coroutine, which cannot raise), and `export_zip` (where iterating
the coroutine raises).  On success it returns the success record and the
archive entries written for this image. -/
def processOne (k : KParam) (idx : Nat) (f : InFile) :
    Except FailRec (SuccessRec × List String) :=
  let nm := fileNameOf idx f
  let stem := nameStemOf idx f
  match f.decode with
  | .error e => .error ⟨nm, "preprocess", e⟩
  | .ok _ =>
  match f.segment with
  | .error e => .error ⟨nm, "segment", e⟩
  | .ok _ =>
  match f.classify with
  | .error e => .error ⟨nm, "classify", e⟩
  | .ok _ =>
  match f.upscale with
  | .error e => .error ⟨nm, "upscale", e⟩
  | .ok _ =>
  match separate_color_layers_batch_call f.upscaled (Option.some k) with
  | .error e => .error ⟨nm, "color_separate", e⟩
  | .ok layers =>
  match pyIterate (add_anchors_to_layers_unawaited layers) with
  | .error e => .error ⟨nm, "export_zip", e⟩
  | .ok final =>
    let paths := exportPaths stem (final.map (·.hex))
    let encoded := (List.range final.length).zipWith
      (fun i l => (i + 1, l.hex, rel_path stem (i + 1) l.hex)) final
    .ok (⟨nm, encoded⟩, paths ++ [stem ++ "/manifest.json"])

/-- The `for file_index, upfile in enumerate(files, start=1)` loop: accumulate
`overall_results`, `per_file_errors` and the archive entries in input order. -/
def runAll (k : KParam) : Nat → List InFile →
    List SuccessRec × List FailRec × List String
  | _, [] => ([], [], [])
  | i, f :: rest =>
    let acc := runAll k (i + 1) rest
    match processOne k i f with
    | .ok (sr, zs) => (sr :: acc.1, acc.2.1, zs ++ acc.2.2)
    | .error fr => (acc.1, fr :: acc.2.1, acc.2.2)

/-- The JSON body returned by `process_images` on (partial) success
(`image.py` lines 168-174), plus the archive entries written. -/
structure BatchOk where
  status : String
  results : List SuccessRec
  errors : List FailRec
  entries : List String
deriving DecidableEq, Repr

/-- `process_images` (`image.py` lines 62-181): run every file, then either
raise the all-files-failed `HTTPException` (lines 164-166, when
`overall_results` is empty) or return the success body with
`partial_success`/`success` status. -/
def process_images (k : KParam) (files : List InFile) :
    Except (String × List FailRec) BatchOk :=
  let acc := runAll k 1 files
  if acc.1 = [] then
    .error ("All files failed to process", acc.2.1)
  else
    .ok ⟨if acc.2.1 = [] then "success" else "partial_success",
         acc.1, acc.2.1, acc.2.2⟩

/-- The per-image `try` body of the WebSocket endpoint (`image.py` lines
218-296).  The step list has no separate `preprocess` entry, so a decode
failure is tagged `load_image`; the call at line 258 omits the required
`auto_k` argument of `separate_color_layers_batch`, and line 263 again fails
to await `add_anchors_to_layers`. -/
def wsProcessOne (idx : Nat) (f : InFile) :
    Except FailRec (SuccessRec × List String) :=
  let nm := "image_" ++ toString idx ++ ".png"
  let stem := stemOf nm
  match f.decode with
  | .error e => .error ⟨nm, "load_image", e⟩
  | .ok _ =>
  match f.segment with
  | .error e => .error ⟨nm, "segment", e⟩
  | .ok _ =>
  match f.classify with
  | .error e => .error ⟨nm, "classify", e⟩
  | .ok _ =>
  match f.upscale with
  | .error e => .error ⟨nm, "upscale", e⟩
  | .ok _ =>
  match separate_color_layers_batch_call f.upscaled Option.none with
  | .error e => .error ⟨nm, "color_separate", e⟩
  | .ok layers =>
  match pyIterate (add_anchors_to_layers_unawaited layers) with
  | .error e => .error ⟨nm, "export_zip", e⟩
  | .ok final =>
    let paths := exportPaths stem (final.map (·.hex))
    let encoded := (List.range final.length).zipWith
      (fun i l => (i + 1, l.hex, rel_path stem (i + 1) l.hex)) final
    .ok (⟨nm, encoded⟩, paths ++ [stem ++ "/manifest.json"])

/-- The WebSocket receive loop, indices starting at 1. -/
def wsRunAll : Nat → List InFile → List SuccessRec × List FailRec
  | _, [] => ([], [])
  | i, f :: rest =>
    let acc := wsRunAll (i + 1) rest
    match wsProcessOne i f with
    | .ok (sr, _) => (sr :: acc.1, acc.2)
    | .error fr => (acc.1, fr :: acc.2)

/-- The final summary frame of the WebSocket endpoint (`image.py` lines
315-329): status `failed` with the all-files message when no image succeeded,
otherwise status `success`. -/
structure WsSummary where
  status : String
  errmsg : Option String
  results : List SuccessRec
  errors : List FailRec
deriving DecidableEq, Repr

/-- `ws_process` over a finite stream of received images. -/
def ws_process (files : List InFile) : WsSummary :=
  let acc := wsRunAll 1 files
  if acc.1 = [] then
    ⟨"failed", Option.some "All files failed to process", [], acc.2⟩
  else
    ⟨"success", Option.none, acc.1, acc.2⟩

/-! ## Concrete fixtures -/

/-- The k-means fit of a solid-red raster with one requested cluster: every
pixel labelled 0, single centroid pure red. -/
def redFit : ClusterFit := ⟨[0, 0, 0, 0], [⟨255, 0, 0⟩]⟩

/-- A solid-red upscaled image specification. -/
def redSpec : ImgSpec := ⟨true, 2, fun _ => redFit⟩

/-- A well-formed upload that decodes and passes every external stage. -/
def goodFile : InFile := ⟨some "a.png", .ok (), .ok (), .ok (), .ok (), [redSpec]⟩

/-- An upload whose bytes are not a decodable image. -/
def badFile : InFile :=
  ⟨some "b.png", .error "cannot identify image file", .ok (), .ok (), .ok (), []⟩

/-! ## Theorems -/

/-- C5: for every label assignment and every centroid list of size `k` in
`[1,10]`, the decomposition returns at most `k` layers, every returned layer
has non-empty pixel membership, each layer's brightness is the weighted luma
`0.299 R + 0.587 G + 0.114 B` of its centroid, and the output is sorted by
non-decreasing brightness. -/
theorem decompose_layer_invariants (labels : List Nat) (centers : List RGB8)
    (hk1 : 1 ≤ centers.length) (hk10 : centers.length ≤ 10) :
    (separate_color_layers_core labels centers).length ≤ centers.length ∧
    (∀ L ∈ separate_color_layers_core labels centers, 0 < labels.count L.cluster) ∧
    (∀ L ∈ separate_color_layers_core labels centers,
        L.brightness = (299 * (L.color.r : ℚ) + 587 * (L.color.g : ℚ) +
          114 * (L.color.b : ℚ)) / 1000) ∧
    List.Sorted brightLe (separate_color_layers_core labels centers) := by
  have hperm : List.Perm (separate_color_layers_core labels centers)
      (buildLayers labels centers) :=
    List.perm_insertionSort brightLe (buildLayers labels centers)
  have hmem : ∀ L ∈ separate_color_layers_core labels centers,
      ∃ ic ∈ centers.enum, ic.1 ∈ labels ∧
        L = { cluster := ic.1, color := ic.2, hex := color_hex ic.2,
              brightness := lumaQ ic.2 } := by
    intro L hL
    have hL' : L ∈ buildLayers labels centers := (hperm.mem_iff).mp hL
    rcases List.mem_filterMap.mp hL' with ⟨ic, hic, hf⟩
    have hf' : ic.1 ∈ labels ∧
        ({ cluster := ic.1, color := ic.2, hex := color_hex ic.2,
           brightness := lumaQ ic.2 } : Layer) = L := by
      simpa using hf
    exact ⟨ic, hic, hf'.1, hf'.2.symm⟩
  refine ⟨?_, ?_, ?_, ?_⟩
  · calc (separate_color_layers_core labels centers).length
        = (buildLayers labels centers).length := hperm.length_eq
      _ ≤ centers.enum.length := List.length_filterMap_le _ _
      _ = centers.length := List.enum_length
  · intro L hL
    rcases hmem L hL with ⟨ic, _, hc, hEq⟩
    have := List.count_pos_iff.mpr hc
    simpa [hEq] using this
  · intro L hL
    rcases hmem L hL with ⟨ic, _, _, hEq⟩
    simp [hEq, lumaQ]
  · exact List.sorted_insertionSort brightLe (buildLayers labels centers)

/-- Closed instance of `decompose_layer_invariants` at a concrete solid-red
input (labels all 0, single red centroid). -/
theorem decompose_layer_invariants_witness :
    (separate_color_layers_core [0, 0, 0, 0] [⟨255, 0, 0⟩]).length ≤
      ([⟨255, 0, 0⟩] : List RGB8).length :=
  (decompose_layer_invariants [0, 0, 0, 0] [⟨255, 0, 0⟩] (by decide) (by decide)).1

/-- C6: whenever `auto_kmeans` (with the caller's `k_min = 2`) completes
without error, the returned count is `argmin(ratios) + k_min + 1` clamped to
at most 10, and it always lies in `[2, 10]` regardless of `k_max`. -/
theorem auto_k_selection_formula_and_range (inertia : Nat → ℚ) (kmax n : Nat)
    (h : auto_kmeans inertia 2 kmax = some n) :
    (∃ a, argminIdx (elbowRatios (npDiff (inertiaSeq inertia 2 kmax))) = some a ∧
        n = min (a + 2 + 1) 10) ∧ 2 ≤ n ∧ n ≤ 10 := by
  unfold auto_kmeans at h
  cases hm : argminIdx (elbowRatios (npDiff (inertiaSeq inertia 2 kmax))) with
  | none => rw [hm] at h; simp at h
  | some a =>
    rw [hm] at h
    simp at h
    refine ⟨⟨a, rfl, ?_⟩, ?_, ?_⟩ <;> omega

/-- Closed instance of `auto_k_selection_formula_and_range` at a concrete
linear inertia profile with `k_max = 4`. -/
theorem auto_k_selection_witness :
    (∃ a, argminIdx (elbowRatios (npDiff
        (inertiaSeq (fun k => 100 - 10 * (k : ℚ)) 2 4))) = some a ∧
        3 = min (a + 2 + 1) 10) ∧ 2 ≤ 3 ∧ 3 ≤ 10 :=
  auto_k_selection_formula_and_range (fun k => 100 - 10 * (k : ℚ)) 4 3 (by decide)

/-- C8: on a well-shaped raster, an `auto_k` of `None`, of the integer `0`
(or `False`, whose integer value is `0`), or of any non-integer value
comparing equal to `0` (e.g. the float `0.0` — the equality-based membership
check `auto_k in (0, False, None)` runs before the `isinstance` test) selects
the automatic cluster count; an integer in `[1,10]` is used directly; every
other value — a non-zero integer outside `[1,10]`, or a non-integer not equal
to `0` — raises the invalid-cluster-count `ValueError` before any clustering
runs (the result is the error for every possible fit oracle). -/
theorem manual_cluster_count_policy (img : ImgSpec) (h : img.shapeOk = true) :
    (separate_color_layers img KParam.none =
      .ok (separate_color_layers_core (img.fit img.autoSel).labels
        (img.fit img.autoSel).centers)) ∧
    (separate_color_layers img (KParam.intval 0) =
      .ok (separate_color_layers_core (img.fit img.autoSel).labels
        (img.fit img.autoSel).centers)) ∧
    (∀ d : String, separate_color_layers img (KParam.nonint true d) =
      .ok (separate_color_layers_core (img.fit img.autoSel).labels
        (img.fit img.autoSel).centers)) ∧
    (∀ n : Int, 1 ≤ n → n ≤ 10 →
      separate_color_layers img (KParam.intval n) =
        .ok (separate_color_layers_core (img.fit n.toNat).labels
          (img.fit n.toNat).centers)) ∧
    (∀ n : Int, n ≠ 0 → (n < 1 ∨ 10 < n) → ∀ img2 : ImgSpec,
      img2.shapeOk = true →
      separate_color_layers img2 (KParam.intval n) = .error invalidKMsg) ∧
    (∀ d : String, ∀ img2 : ImgSpec, img2.shapeOk = true →
      separate_color_layers img2 (KParam.nonint false d) = .error invalidKMsg) := by
  refine ⟨?_, ?_, ?_, ?_, ?_, ?_⟩
  · simp [separate_color_layers, selectNColors, h]
  · simp [separate_color_layers, selectNColors, h]
  · intro d
    simp [separate_color_layers, selectNColors, h]
  · intro n h1 h10
    have hne : ¬ n = 0 := by omega
    simp [separate_color_layers, selectNColors, h, hne, h1, h10]
  · intro n hne hout img2 h2
    have : ¬ (1 ≤ n ∧ n ≤ 10) := by omega
    simp [separate_color_layers, selectNColors, h2, hne, this]
  · intro d img2 h2
    simp [separate_color_layers, selectNColors, h2]

/-- Closed instance of `manual_cluster_count_policy`: manual count 1 on the
solid-red image is used directly. -/
theorem manual_cluster_count_policy_witness :
    separate_color_layers redSpec (KParam.intval 1) =
      .ok (separate_color_layers_core (redSpec.fit (1 : Int).toNat).labels
        (redSpec.fit (1 : Int).toNat).centers) :=
  (manual_cluster_count_policy redSpec rfl).2.2.2.1 1 (by decide) (by decide)

/-- A normalised Python slice endpoint always lies in `[0, n]`. -/
theorem pySliceLo_bounds (n a : Int) (hn : 0 ≤ n) :
    0 ≤ pySliceLo n a ∧ pySliceLo n a ≤ n := by
  unfold pySliceLo
  split <;> constructor <;> omega

/-- C7: every pixel written by `add_anchors` lies inside the `h x w` image
(for any non-negative dimensions, any margin, cross size and outline width),
and a corner position whose cross including outline does not fit is skipped
entirely: if no corner fits, nothing is written at all. -/
theorem anchors_write_within_bounds (h w margin cs ow r c : Int)
    (hh : 0 ≤ h) (hw : 0 ≤ w) :
    (addAnchorsWrites h w cs margin ow r c = true →
       0 ≤ r ∧ r < h ∧ 0 ≤ c ∧ c < w) ∧
    ((∀ p ∈ anchorPositions h w margin, crossFits h w cs ow p = false) →
       addAnchorsWrites h w cs margin ow r c = false) := by
  constructor
  · intro hwr
    rcases List.any_eq_true.mp hwr with ⟨R, _, hmemR⟩
    have hm4 : pySliceLo h R.rlo ≤ r ∧ r < pySliceLo h R.rhi ∧
        pySliceLo w R.clo ≤ c ∧ c < pySliceLo w R.chi := by
      simp only [rectMem, Bool.and_eq_true, decide_eq_true_eq] at hmemR
      tauto
    have hrow := pySliceLo_bounds h R.rlo hh
    have hrow2 := pySliceLo_bounds h R.rhi hh
    have hcol := pySliceLo_bounds w R.clo hw
    have hcol2 := pySliceLo_bounds w R.chi hw
    refine ⟨?_, ?_, ?_, ?_⟩ <;> omega
  · intro hnone
    have hfil : (anchorPositions h w margin).filter (crossFits h w cs ow) = [] := by
      rw [List.filter_eq_nil_iff]
      intro p hp
      simp [hnone p hp]
    simp [addAnchorsWrites, addAnchorsRects, hfil]

/-- Closed instance of `anchors_write_within_bounds`: on a 100x100 image with
the default parameters the outline pixel `(15, 3)` of the top-left cross is in
bounds, and on a degenerate 5x5 image no pixel is written at all. -/
theorem anchors_write_within_bounds_witness :
    ((0 : Int) ≤ 15 ∧ (15 : Int) < 100 ∧ (0 : Int) ≤ 3 ∧ (3 : Int) < 100) ∧
    addAnchorsWrites 5 5 10 15 2 0 0 = false :=
  ⟨(anchors_write_within_bounds 100 100 15 10 2 15 3 (by decide) (by decide)).1
      (by decide),
   (anchors_write_within_bounds 5 5 15 10 2 0 0 (by decide) (by decide)).2
      (by decide)⟩

/-- A concrete per-image annotator that raises on image token 2 and succeeds
elsewhere, exhibiting a per-layer annotation failure. -/
def annFailOn2 : Nat → Except String Nat :=
  fun i => if i = 2 then .error "boom" else .ok i

/-- C4 counterexample: with two tagged layers whose second annotation raises,
`add_anchors_to_layers` returns the error — it does not drop the failing
layer and return the annotated remainder as the claim states. -/
theorem annotate_layers_no_per_layer_recovery :
    add_anchors_to_layers annFailOn2
        [LItem.tup 1 "#112233", LItem.tup 2 "#445566"] = .error "boom" ∧
    add_anchors_to_layers annFailOn2
        [LItem.tup 1 "#112233", LItem.tup 2 "#445566"] ≠
      .ok [LItem.tup 1 "#112233"] := by
  refine ⟨rfl, ?_⟩
  intro h
  have h2 : (Except.error "boom" : Except String (List LItem)) =
      .ok [LItem.tup 1 "#112233"] := h
  exact Except.noConfusion h2

/-- If `add_anchors_to_layers` returned a list, every per-item annotation
succeeded and the output is the item-wise annotated input. -/
theorem add_anchors_to_layers_ok_inv (ann : Nat → Except String Nat) :
    ∀ (xs ys : List LItem), add_anchors_to_layers ann xs = .ok ys →
      ys = xs.map (annotateItem ann) ∧ ∀ x ∈ xs, (ann x.img).isOk = true := by
  intro xs
  induction xs with
  | nil =>
    intro ys h
    cases h
    exact ⟨rfl, by simp⟩
  | cons x t ih =>
    intro ys h
    cases x with
    | tup img hex =>
      cases hA : ann img with
      | error e => simp only [add_anchors_to_layers, hA] at h; cases h
      | ok v =>
        simp only [add_anchors_to_layers, hA] at h
        cases hR : add_anchors_to_layers ann t with
        | error e => rw [hR] at h; cases h
        | ok r =>
          rw [hR] at h
          cases h
          rcases ih r hR with ⟨hr, hall⟩
          refine ⟨?_, ?_⟩
          · simp [annotateItem, LItem.img, hA, hr, Except.toOption]
          · intro z hz
            rcases List.mem_cons.mp hz with rfl | hzt
            · simp [LItem.img, hA, Except.isOk, Except.toBool]
            · exact hall z hzt
    | plain img =>
      cases hA : ann img with
      | error e => simp only [add_anchors_to_layers, hA] at h; cases h
      | ok v =>
        simp only [add_anchors_to_layers, hA] at h
        cases hR : add_anchors_to_layers ann t with
        | error e => rw [hR] at h; cases h
        | ok r =>
          rw [hR] at h
          cases h
          rcases ih r hR with ⟨hr, hall⟩
          refine ⟨?_, ?_⟩
          · simp [annotateItem, LItem.img, hA, hr, Except.toOption]
          · intro z hz
            rcases List.mem_cons.mp hz with rfl | hzt
            · simp [LItem.img, hA, Except.isOk, Except.toBool]
            · exact hall z hzt

/-- C4 (amended): `add_anchors_to_layers` preserves input order and hex tags,
annotating each item, when every per-layer annotation succeeds; but when the
annotation of any layer raises, the error propagates and the whole call fails
(there is no per-layer recovery and no layer is dropped). -/
theorem annotate_layers_order_tags_and_propagation
    (ann : Nat → Except String Nat) (xs : List LItem) :
    ((∀ x ∈ xs, (ann x.img).isOk = true) →
       add_anchors_to_layers ann xs = .ok (xs.map (annotateItem ann))) ∧
    ((∃ x ∈ xs, (ann x.img).isOk = false) →
       ∃ e, add_anchors_to_layers ann xs = .error e) ∧
    (∀ ys, add_anchors_to_layers ann xs = .ok ys →
       ys.map LItem.tag = xs.map LItem.tag) := by
  refine ⟨?_, ?_, ?_⟩
  · intro hall
    induction xs with
    | nil => rfl
    | cons x t ih =>
      have ht : ∀ y ∈ t, (ann y.img).isOk = true := fun y hy => hall y (by simp [hy])
      cases x with
      | tup img hex =>
        have hx : (ann img).isOk = true := hall (LItem.tup img hex) (by simp)
        cases hA : ann img with
        | error e => rw [hA] at hx; simp [Except.isOk, Except.toBool] at hx
        | ok v =>
          simp only [add_anchors_to_layers, hA, ih ht]
          simp [annotateItem, LItem.img, hA, Except.toOption]
      | plain img =>
        have hx : (ann img).isOk = true := hall (LItem.plain img) (by simp)
        cases hA : ann img with
        | error e => rw [hA] at hx; simp [Except.isOk, Except.toBool] at hx
        | ok v =>
          simp only [add_anchors_to_layers, hA, ih ht]
          simp [annotateItem, LItem.img, hA, Except.toOption]
  · intro hfail
    rcases hfail with ⟨y, hy, hyf⟩
    cases hres : add_anchors_to_layers ann xs with
    | error e => exact ⟨e, rfl⟩
    | ok ys =>
      have h2 := (add_anchors_to_layers_ok_inv ann xs ys hres).2 y hy
      rw [hyf] at h2
      exact Bool.noConfusion h2
  · intro ys hys
    have h1 := (add_anchors_to_layers_ok_inv ann xs ys hys).1
    subst h1
    rw [List.map_map]
    apply List.map_congr_left
    intro x _
    cases x <;> rfl

/-- Closed instance of `annotate_layers_order_tags_and_propagation`: a
single tagged layer with a succeeding annotator maps through with its tag. -/
theorem annotate_layers_order_tags_witness :
    add_anchors_to_layers (fun i => Except.ok (i + 1)) [LItem.tup 3 "#ff0000"] =
      .ok ([LItem.tup 3 "#ff0000"].map (annotateItem fun i => Except.ok (i + 1))) :=
  (annotate_layers_order_tags_and_propagation (fun i => Except.ok (i + 1))
    [LItem.tup 3 "#ff0000"]).1 (by decide)

/-- C3 counterexample: for the solid-red scenario (65536 pixels all in one
cluster with centroid pure red), the archive entry name computed by the export
loop is not the claimed `image/layer_1_ff0000.png`. -/
theorem export_entry_name_counterexample :
    "image/layer_1_ff0000.png" ∉ exportPaths "image"
      ((separate_color_layers_core (List.replicate 65536 0)
        [⟨255, 0, 0⟩]).map (·.hex)) := by
  decide

/-- C3 (amended): the export loop names each entry
`<stem>/layer_<n>_<tag>.png` with `n` the 1-based position in the
brightness-sorted order and the hex tag inserted verbatim — and the tag
carries a leading `#`, so the solid-red scenario entry is
`image/layer_1_#ff0000.png`. -/
theorem export_entry_name_scenario :
    exportPaths "image" ((separate_color_layers_core (List.replicate 65536 0)
        [⟨255, 0, 0⟩]).map (·.hex)) = ["image/layer_1_#ff0000.png"] ∧
    color_hex ⟨255, 0, 0⟩ = "#ff0000" := by
  exact ⟨rfl, rfl⟩

/-- Whether a file passes decode, the three external stages and colour
separation, i.e. reaches the annotation step of the batch endpoint. -/
def reachesAnchors (k : KParam) (f : InFile) : Bool :=
  f.decode.isOk && f.segment.isOk && f.classify.isOk && f.upscale.isOk &&
  (separate_color_layers_batch_call f.upscaled (Option.some k)).isOk

/-- Whether a streamed image passes decode and the three external stages,
i.e. reaches the colour-separation step of the WebSocket endpoint. -/
def wsReachesSep (f : InFile) : Bool :=
  f.decode.isOk && f.segment.isOk && f.classify.isOk && f.upscale.isOk

/-- `processOne` can never return a success: every path either fails at an
earlier stage or hits the unawaited coroutine at the export step. -/
theorem processOne_isError (k : KParam) (idx : Nat) (f : InFile) :
    ∃ fr, processOne k idx f = Except.error fr := by
  unfold processOne
  cases f.decode with
  | error e => exact ⟨_, rfl⟩
  | ok u =>
  cases f.segment with
  | error e => exact ⟨_, rfl⟩
  | ok u2 =>
  cases f.classify with
  | error e => exact ⟨_, rfl⟩
  | ok u3 =>
  cases f.upscale with
  | error e => exact ⟨_, rfl⟩
  | ok u4 =>
  cases hsep : separate_color_layers_batch_call f.upscaled (Option.some k) with
  | error e => exact ⟨_, rfl⟩
  | ok layers => exact ⟨_, rfl⟩

/-- Under the batch endpoint no file ever succeeds and every file produces
exactly one failure record. -/
theorem runAll_all_fail (k : KParam) (i : Nat) (files : List InFile) :
    (runAll k i files).1 = [] ∧
    (runAll k i files).2.1.length = files.length := by
  induction files generalizing i with
  | nil => simp [runAll]
  | cons f rest ih =>
    obtain ⟨fr, hfr⟩ := processOne_isError k i f
    have h2 := ih (i + 1)
    simp [runAll, hfr, h2.1, h2.2]

/-- C2: `add_anchors_to_layers` is called without `await`, so `final` is a
coroutine object; iterating it raises `TypeError` with `current_step` already
advanced to `export_zip`.  Hence for every batch containing at least one image
that reaches the annotation stage, every such image is recorded as a failure
at the `export_zip` step, every image yields a failure record, and
`process_images` always raises the all-files-failed error, never returning a
success. -/
theorem batch_coroutine_all_items_fail (k : KParam) (files : List InFile)
    (hne : ∃ f ∈ files, reachesAnchors k f = true) :
    (∃ errs, process_images k files =
        Except.error ("All files failed to process", errs) ∧
        errs.length = files.length) ∧
    (∀ idx f, reachesAnchors k f = true →
      processOne k idx f = Except.error ⟨fileNameOf idx f, "export_zip",
        "TypeError: coroutine object is not iterable"⟩) := by
  constructor
  · have h := runAll_all_fail k 1 files
    refine ⟨(runAll k 1 files).2.1, ?_, h.2⟩
    unfold process_images
    rw [if_pos h.1]
  · intro idx f hr
    simp only [reachesAnchors, Bool.and_eq_true] at hr
    obtain ⟨⟨⟨⟨h1, h2⟩, h3⟩, h4⟩, h5⟩ := hr
    unfold processOne
    cases hd : f.decode with
    | error e => rw [hd] at h1; exact Bool.noConfusion h1
    | ok u =>
    cases hs : f.segment with
    | error e => rw [hs] at h2; exact Bool.noConfusion h2
    | ok u2 =>
    cases hc : f.classify with
    | error e => rw [hc] at h3; exact Bool.noConfusion h3
    | ok u3 =>
    cases hu : f.upscale with
    | error e => rw [hu] at h4; exact Bool.noConfusion h4
    | ok u4 =>
    cases hsep : separate_color_layers_batch_call f.upscaled (Option.some k) with
    | error e => rw [hsep] at h5; exact Bool.noConfusion h5
    | ok layers => rfl

/-- Closed instance of `batch_coroutine_all_items_fail` on a one-element batch
whose image decodes and passes every stage up to annotation. -/
theorem batch_coroutine_all_items_fail_witness :
    ∃ errs, process_images (KParam.intval 1) [goodFile] =
        Except.error ("All files failed to process", errs) ∧
      errs.length = [goodFile].length :=
  (batch_coroutine_all_items_fail (KParam.intval 1) [goodFile]
    ⟨goodFile, by simp, by rfl⟩).1

/-- C1 (code bug evaluation): on the batch claimed by the spec — one fully
valid image `a.png` and one undecodable image `b.png`, manual count 1, so
N = 2 and M = 1 — the endpoint does not return 1 success and 1 failure:
because the annotation coroutine is never awaited, `a.png` is also recorded
as a failure (at `export_zip`) and the endpoint raises the all-files-failed
error with no archive entries. -/
theorem batch_partial_success_unreachable :
    process_images (KParam.intval 1) [goodFile, badFile] =
      Except.error ("All files failed to process",
        [⟨"a.png", "export_zip", "TypeError: coroutine object is not iterable"⟩,
         ⟨"b.png", "preprocess", "cannot identify image file"⟩]) := by
  rfl

/-- `wsProcessOne` can never return a success: colour separation is called
without its required `auto_k` argument, so every image that reaches it fails
there, and earlier stages can only fail earlier. -/
theorem wsProcessOne_isError (idx : Nat) (f : InFile) :
    ∃ fr, wsProcessOne idx f = Except.error fr := by
  unfold wsProcessOne
  cases f.decode with
  | error e => exact ⟨_, rfl⟩
  | ok u =>
  cases f.segment with
  | error e => exact ⟨_, rfl⟩
  | ok u2 =>
  cases f.classify with
  | error e => exact ⟨_, rfl⟩
  | ok u3 =>
  cases f.upscale with
  | error e => exact ⟨_, rfl⟩
  | ok u4 => exact ⟨_, rfl⟩

/-- The WebSocket loop records every streamed image as a failure. -/
theorem wsRunAll_all_fail (i : Nat) (files : List InFile) :
    (wsRunAll i files).1 = [] ∧
    (wsRunAll i files).2.length = files.length := by
  induction files generalizing i with
  | nil => simp [wsRunAll]
  | cons f rest ih =>
    obtain ⟨fr, hfr⟩ := wsProcessOne_isError i f
    have h2 := ih (i + 1)
    simp [wsRunAll, hfr, h2.1, h2.2]

/-- C10: the WebSocket endpoint calls `separate_color_layers_batch` without
the required `auto_k` argument, so every image that reaches the
`color_separate` stage fails there with the missing-argument `TypeError`;
every streamed image lands in the failure list and the final summary is
always the all-files-failed report — the streaming variant can never produce
a successful per-image result. -/
theorem ws_color_separate_always_fails (files : List InFile) (idx : Nat)
    (f : InFile) (h : wsReachesSep f = true) :
    wsProcessOne idx f = Except.error ⟨"image_" ++ toString idx ++ ".png",
      "color_separate",
      "TypeError: separate_color_layers_batch missing 1 required positional argument: auto_k"⟩ ∧
    (ws_process files).status = "failed" ∧
    (ws_process files).results = [] ∧
    (ws_process files).errors.length = files.length := by
  have hall := wsRunAll_all_fail 1 files
  refine ⟨?_, ?_, ?_, ?_⟩
  · simp only [wsReachesSep, Bool.and_eq_true] at h
    obtain ⟨⟨⟨h1, h2⟩, h3⟩, h4⟩ := h
    unfold wsProcessOne
    cases hd : f.decode with
    | error e => rw [hd] at h1; exact Bool.noConfusion h1
    | ok u =>
    cases hs : f.segment with
    | error e => rw [hs] at h2; exact Bool.noConfusion h2
    | ok u2 =>
    cases hc : f.classify with
    | error e => rw [hc] at h3; exact Bool.noConfusion h3
    | ok u3 =>
    cases hu : f.upscale with
    | error e => rw [hu] at h4; exact Bool.noConfusion h4
    | ok u4 => rfl
  · unfold ws_process
    rw [if_pos hall.1]
  · unfold ws_process
    rw [if_pos hall.1]
  · unfold ws_process
    rw [if_pos hall.1]
    exact hall.2

/-- Closed instance of `ws_color_separate_always_fails` at a single streamed
image passing all external stages. -/
theorem ws_color_separate_always_fails_witness :
    wsProcessOne 1 goodFile = Except.error ⟨"image_" ++ toString 1 ++ ".png",
      "color_separate",
      "TypeError: separate_color_layers_batch missing 1 required positional argument: auto_k"⟩ ∧
    (ws_process [goodFile]).status = "failed" ∧
    (ws_process [goodFile]).results = [] ∧
    (ws_process [goodFile]).errors.length = [goodFile].length :=
  ws_color_separate_always_fails [goodFile] 1 goodFile (by rfl)

end Clotex
